import Mathlib

/-!
A shallow embedding of the Soroban smart-contract invocation service
(class SorobanService of the StellarSwipe backend) together with
theorems checking its natural-language specification.  The remote RPC
endpoint and the XDR value codec are modelled as explicit parameters
(an Oracle and a Codec); every service method is translated
control-flow-faithfully from the TypeScript source, including the
JavaScript truthiness tests the source relies on.
-/

namespace Soroban

/-- JavaScript runtime values flowing through the service: undefined,
null, booleans, numbers (restricted to integers, which is all the
service produces), strings, XDR ScVal references (an abstract
numeric tag standing for the ScVal object), objects wrapping an ScVal
under a scVal key (the second branch of toScVal), and arrays. -/
inductive JsVal where
  | undefined
  | null
  | bool (b : Bool)
  | num (n : Int)
  | str (s : String)
  | scv (v : Nat)
  | scvWrapped (v : Nat)
  | arr (xs : List JsVal)


/-- JavaScript truthiness: undefined, null, false, 0 and the empty
string are falsy; every object (ScVal references, wrappers, arrays,
including the empty array) is truthy. -/
def jsTruthy : JsVal → Bool
  | .undefined => false
  | .null => false
  | .bool b => b
  | .num n => n != 0
  | .str s => s != ""
  | .scv _ => true
  | .scvWrapped _ => true
  | .arr _ => true

/-- JavaScript a or-else b on values: a when truthy, else b. -/
def jsOr (a b : JsVal) : JsVal :=
  if jsTruthy a then a else b

/-- JavaScript a or-else b on optional strings (undefined and the
empty string are falsy). -/
def jsOrOptStr (a b : Option String) : Option String :=
  match a with
  | some s => if s = "" then b else some s
  | none => b

/-- Truthiness of an optional string: present and non-empty. -/
def jsTruthyOptStr : Option String → Bool
  | some s => s != ""
  | none => false

/-- JavaScript (a or-else d) where d is a known string (used for
options.sourceAccount falling back to the derived public key). -/
def jsOrStr (a : Option String) (d : String) : String :=
  match a with
  | some s => if s = "" then d else s
  | none => d

mutual

/-- JavaScript String(v) conversion (only the cases the service can
feed it; nested arrays join their elements with commas). -/
def jsToString : JsVal → String
  | .undefined => "undefined"
  | .null => "null"
  | .bool b => if b then "true" else "false"
  | .num n => toString n
  | .str s => s
  | .scv _ => "[object Object]"
  | .scvWrapped _ => "[object Object]"
  | .arr xs => String.intercalate "," (jsToStringList xs)

/-- Pointwise String(v) over a list (mutual helper for arrays). -/
def jsToStringList : List JsVal → List String
  | [] => []
  | x :: xs => jsToString x :: jsToStringList xs

end

/-- The XDR value codec capability the service delegates to: base64
decoding of a ledger value (none models a thrown decoding error),
scValToNative, nativeToScVal (Except String models a thrown encoding
error whose message is carried), and the strkey validation performed
by the Contract constructor. -/
structure Codec where
  fromBase64 : String → Option Nat
  scValToNative : Nat → JsVal
  nativeToScVal : JsVal → Except String Nat
  contractIdCheck : String → Except String Unit

/-- SorobanService.parseScVal: falsy values become undefined; an ScVal
reference is decoded; a string is tentatively base64-decoded and, when
decoding throws, returned unchanged; everything else is returned
unchanged. -/
def parseScVal (c : Codec) (value : JsVal) : JsVal :=
  if jsTruthy value then
    match value with
    | .scv v => c.scValToNative v
    | .str s =>
      match c.fromBase64 s with
      | some v => c.scValToNative v
      | none => .str s
    | v => v
  else
    .undefined

/-- A raw event record as returned by the RPC endpoint: all fields are
loosely typed; undefined models an absent field. -/
structure RawEvent where
  type : JsVal
  contractId : Option String
  contract_id : Option String
  topic : JsVal
  topics : JsVal
  data : JsVal
  value : JsVal


/-- The decoded ContractEvent interface. -/
structure ContractEvent where
  type : String
  contractId : Option String
  topics : Option (List JsVal)
  data : JsVal


/-- The per-event body of SorobanService.parseEvents. -/
def parseEvent (c : Codec) (e : RawEvent) : ContractEvent :=
  { type := jsToString (jsOr e.type (.str "unknown"))
    contractId := jsOrOptStr e.contractId e.contract_id
    topics :=
      match jsOr e.topic e.topics with
      | .arr xs => some (xs.map (parseScVal c))
      | _ => none
    data := parseScVal c (jsOr e.data e.value) }

/-- SorobanService.parseEvents: map parseEvent over the raw list. -/
def parseEvents (c : Codec) (events : List RawEvent) : List ContractEvent :=
  events.map (parseEvent c)

/-- A SorobanException: a message plus optional contractId/method
attribution (its details payload is carried by no claim and is not
modelled). -/
structure SorobanErr where
  message : String
  contractId : Option String
  method : Option String
deriving DecidableEq

/-- An error travelling through the service: a SorobanException, or a
generic JavaScript Error carrying a message (network failures, strkey
validation, Keypair.fromSecret, BigInt conversion). -/
inductive JsErr where
  | soroban (e : SorobanErr)
  | generic (msg : String)
deriving DecidableEq

/-- Ledger account state returned by getAccount. -/
structure Account where
  accountId : String
  sequenceNumber : String

/-- The contract-call operation built by buildContractOperation (the
arguments are ScVal references). -/
structure Operation where
  contractId : String
  method : String
  args : List Nat

/-- The transaction assembled by the TransactionBuilder: source
account, sequence, fixed base fee, network passphrase, one operation,
a 30-second validity bound, and whether it has been signed. -/
structure Tx where
  source : String
  sequence : String
  fee : String
  networkPassphrase : String
  operation : Operation
  timeoutSecs : Nat
  signed : Bool

/-- The stellar-sdk BASE_FEE constant ("100" stroops). -/
def BASE_FEE : String := "100"

/-- Service configuration supplied by StellarConfigService. -/
structure Config where
  networkPassphrase : String
  apiTimeout : Nat

/-- The TransactionBuilder invocation shared by invokeContract and
estimateFees: base fee, network passphrase, one operation, timeout
thirty seconds. -/
def mkTx (account : Account) (op : Operation) (cfg : Config) : Tx :=
  { source := account.accountId
    sequence := account.sequenceNumber
    fee := BASE_FEE
    networkPassphrase := cfg.networkPassphrase
    operation := op
    timeoutSecs := 30
    signed := false }

/-- A successful simulation response: the result.retval preview slot
(undefined when absent) and minResourceFee. -/
structure SimSuccess where
  retval : JsVal
  minResourceFee : Option String

/-- The simulateTransaction RPC outcome: a simulation error carrying
the remote diagnostic string, or a success payload. -/
inductive SimResponse where
  | err (error : String)
  | ok (s : SimSuccess)

/-- The sendTransaction response. -/
structure SendResponse where
  status : String
  hash : Option String

/-- The getTransaction response. -/
structure TxResponse where
  status : Option String
  feeCharged : Option String
  errorResultXdr : Option String
  resultXdr : Option String
  events : Option (List RawEvent)

/-- One fee-statistics bucket of the getFeeStats response. -/
structure FeeStatBucket where
  p95 : Option String
  max : Option String
  mode : Option String
  min : Option String

/-- The getFeeStats response object. -/
structure FeeStats where
  sorobanInclusionFee : Option FeeStatBucket
  inclusionFee : Option FeeStatBucket
  feeCharged : Option FeeStatBucket

/-- The empty fee-statistics object. -/
def emptyFeeStats : FeeStats := ⟨none, none, none⟩

/-- Remote call labels, recorded in invocation traces. -/
inductive RCall where
  | getAccount
  | simulate
  | prepare
  | send
  | getTx
  | getFeeStats
deriving DecidableEq

/-- Poll-loop events: a status query, or a sleep of the given number
of milliseconds. -/
inductive PollEv where
  | query
  | sleep (ms : Nat)
deriving DecidableEq

/-- The RPC endpoint and local signing capability.  Each remote call
returns its outcome; an error models both a remote-reported failure
and the RemoteCallTimeout raised by withTimeout.  getTx is indexed by
the hash and a per-invocation call counter and also reports the
wall-clock duration of the call in milliseconds; getFeeStats is none
when the server object lacks the capability, and its payload is none
when the call resolves to a falsy value. -/
structure Oracle where
  keypairFromSecret : String → Except String String
  getAccount : String → Except JsErr Account
  simulate : Tx → Except JsErr SimResponse
  prepare : Tx → Except JsErr Tx
  send : Tx → Except JsErr SendResponse
  getTx : String → Nat → Except JsErr TxResponse × Nat
  getFeeStats : Option (Except JsErr (Option FeeStats))

/-- Accumulating decimal parser over the characters of a fee
string. -/
def parseDigitsAux : List Char → Nat → Option Nat
  | [], acc => some acc
  | ch :: rest, acc =>
    if ch.isDigit then parseDigitsAux rest (acc * 10 + (ch.toNat - 48))
    else none

/-- SorobanService.toBigInt on the strings the service feeds it:
JavaScript BigInt(String(s)) on decimal-form strings — the empty
string converts to zero, an optional leading minus is followed by
decimal digits, and anything else throws (none). -/
def toBigInt (s : String) : Option Int :=
  match s.data with
  | [] => some 0
  | '-' :: rest =>
    if rest = [] then none
    else (parseDigitsAux rest 0).map (fun n => -(n : Int))
  | l => (parseDigitsAux l 0).map (fun n => (n : Int))

/-- JavaScript or-else on optional objects (objects are always
truthy, so this is plain presence priority). -/
def jsOrObj {α : Type} (a b : Option α) : Option α :=
  match a with
  | some x => some x
  | none => b

/-- SorobanService.resolveInclusionFee: pick the first fee bucket
(sorobanInclusionFee, then inclusionFee, then feeCharged), then the
first truthy statistic (p95, then max, then mode, then min; the
JavaScript or-else chain yields the last raw value when every
statistic is falsy); convert the candidate when it is defined and
fall back to BASE_FEE otherwise.  none models a thrown BigInt
conversion error. -/
def resolveInclusionFee (feeStats : FeeStats) : Option Int :=
  let inclusionFee :=
    jsOrObj (jsOrObj feeStats.sorobanInclusionFee feeStats.inclusionFee)
      feeStats.feeCharged
  let feeCandidate :=
    match inclusionFee with
    | none => none
    | some b => jsOrOptStr (jsOrOptStr (jsOrOptStr b.p95 b.max) b.mode) b.min
  match feeCandidate with
  | some s => toBigInt s
  | none => toBigInt BASE_FEE

/-- Modelled from the spec's words, for comparison with
resolveInclusionFee: prefer the soroban-specific bucket over the
generic inclusion-fee bucket over the raw feeCharged bucket, and
within the chosen bucket prefer the 95th percentile over max over
mode over min; when no statistic is available use the network's base
fee. -/
def specResolveInclusionFee (feeStats : FeeStats) : Option Int :=
  match
    jsOrObj (jsOrObj feeStats.sorobanInclusionFee feeStats.inclusionFee)
      feeStats.feeCharged
  with
  | none => toBigInt BASE_FEE
  | some b =>
    match jsOrObj (jsOrObj (jsOrObj b.p95 b.max) b.mode) b.min with
    | some s => toBigInt s
    | none => toBigInt BASE_FEE

/-- The fee statistics actually used by estimateFees: an empty object
when the server lacks the getFeeStats capability, the error when the
call fails, and (feeStats or-else the empty object) otherwise. -/
def statsOf (o : Oracle) : Except JsErr FeeStats :=
  match o.getFeeStats with
  | none => .ok emptyFeeStats
  | some (.error e) => .error e
  | some (.ok ms) => .ok (ms.getD emptyFeeStats)

/-- SorobanService.simulateTransaction: run the RPC simulation (a
transport failure or timeout propagates) and turn a simulation error
into a SorobanException whose message carries the remote diagnostic
and which has no contractId/method attribution. -/
def simulateTransaction (o : Oracle) (tx : Tx) : Except JsErr SimSuccess :=
  match o.simulate tx with
  | .error e => .error e
  | .ok (.err msg) =>
    .error (.soroban ⟨"Simulation failed: " ++ msg, none, none⟩)
  | .ok (.ok s) => .ok s

/-- SorobanService.toScVal: an ScVal reference passes through, an
object wrapping one under a scVal key is unwrapped, and anything else
goes through nativeToScVal with an encoding error rethrown as a
SorobanException carrying only the message. -/
def toScVal (c : Codec) (param : JsVal) : Except JsErr Nat :=
  match param with
  | .scv v => .ok v
  | .scvWrapped v => .ok v
  | p =>
    match c.nativeToScVal p with
    | .ok v => .ok v
    | .error msg => .error (.soroban ⟨msg, none, none⟩)

/-- Sequential conversion of the parameter list: the first conversion
error aborts the mapping, as the thrown exception does in the
source. -/
def toScValList (c : Codec) : List JsVal → Except JsErr (List Nat)
  | [] => .ok []
  | p :: ps =>
    match toScVal c p with
    | .error e => .error e
    | .ok v =>
      match toScValList c ps with
      | .error e => .error e
      | .ok vs => .ok (v :: vs)

/-- SorobanService.buildContractOperation: the Contract constructor
validates the contract id (throwing a generic error on a bad strkey),
then every parameter is converted by toScVal. -/
def buildContractOperation (c : Codec) (contractId method : String)
    (params : List JsVal) : Except JsErr Operation :=
  match c.contractIdCheck contractId with
  | .error msg => .error (.generic msg)
  | .ok _ =>
    match toScValList c params with
    | .error e => .error e
    | .ok args => .ok ⟨contractId, method, args⟩

/-- JavaScript (timeoutMs or-else apiTimeout): an absent or zero
timeout falls back to the configured default. -/
def jsTimeoutOrDefault (timeoutMs : Option Nat) (apiTimeout : Nat) : Nat :=
  match timeoutMs with
  | some t => if t = 0 then apiTimeout else t
  | none => apiTimeout

/-- The polling loop inside SorobanService.waitForTransaction.  Each
iteration first checks the wall clock against the fixed deadline,
then queries the transaction status (the query's duration advances
the clock); a truthy non-PENDING status returns immediately, and
otherwise the loop sleeps min(2000 * (attempt + 1), 8000)
milliseconds and retries.  Alongside the outcome it returns the trace
of queries and sleeps. -/
def waitLoop (o : Oracle) (txHash : String) (deadline now attempt : Nat) :
    Except JsErr TxResponse × List PollEv :=
  if _hlt : now < deadline then
    match o.getTx txHash attempt with
    | (.error e, _) => (.error e, [.query])
    | (.ok response, dur) =>
      if jsTruthyOptStr response.status && response.status != some "PENDING" then
        (.ok response, [.query])
      else
        let delayMs := min (2000 * (attempt + 1)) 8000
        let rest := waitLoop o txHash deadline (now + dur + delayMs) (attempt + 1)
        (rest.1, .query :: .sleep delayMs :: rest.2)
  else
    (.error (.soroban ⟨"Timed out waiting for Soroban transaction", none, none⟩), [])
termination_by deadline - now
decreasing_by
  simp_wf
  omega

/-- SorobanService.waitForTransaction: the deadline is computed once,
as the current time plus (timeoutMs or-else the configured
apiTimeout), before entering the polling loop. -/
def waitForTransaction (o : Oracle) (txHash : String)
    (timeoutMs : Option Nat) (apiTimeout : Nat) (start : Nat) :
    Except JsErr TxResponse × List PollEv :=
  waitLoop o txHash (start + jsTimeoutOrDefault timeoutMs apiTimeout) start 0

/-- Number of status queries in a poll trace. -/
def countQueries (trace : List PollEv) : Nat :=
  trace.countP (fun e => e == PollEv.query)

/-- SorobanService.getContractEvents: an empty hash yields no events
without a remote call; otherwise the transaction is fetched (at the
given getTx call index) and its events are decoded only when the
status is SUCCESS. -/
def getContractEvents (o : Oracle) (c : Codec) (txHash : String) (ix : Nat) :
    Except JsErr (List ContractEvent) × List RCall :=
  if txHash = "" then (.ok [], [])
  else
    match (o.getTx txHash ix).1 with
    | .error e => (.error e, [.getTx])
    | .ok transaction =>
      if transaction.status != some "SUCCESS" then (.ok [], [.getTx])
      else (.ok (parseEvents c (transaction.events.getD [])), [.getTx])

/-- SorobanService.getSimulationAccount: the fixed zero-balance
placeholder account used for fee estimation. -/
def getSimulationAccount : Account :=
  ⟨"GAAAAAAAAAAAAAAAAAAAAAAAAAAAAAAAAAAAAAAAAAAAAAAAAAAAAWHF", "0"⟩

/-- The FeeEstimate record: stringified bigint components. -/
structure FeeEstimate where
  inclusionFee : String
  resourceFee : String
  totalFee : String
deriving DecidableEq

/-- SorobanService.estimateFees: build a disposable transaction on the
simulation account, simulate it, convert (minResourceFee or-else "0")
to a bigint, fetch the fee statistics (an empty object when the
capability is missing), resolve the inclusion fee, and return the
stringified components with totalFee = inclusionFee + resourceFee. -/
def estimateFees (o : Oracle) (cfg : Config) (op : Operation) :
    Except JsErr FeeEstimate × List RCall :=
  let tx := mkTx getSimulationAccount op cfg
  match simulateTransaction o tx with
  | .error e => (.error e, [.simulate])
  | .ok sim =>
    match toBigInt (jsOrStr sim.minResourceFee "0") with
    | none => (.error (.generic "Cannot convert to a BigInt"), [.simulate])
    | some resourceFee =>
      let statsTrace := if o.getFeeStats.isSome then [RCall.getFeeStats] else []
      match statsOf o with
      | .error e => (.error e, [.simulate] ++ statsTrace)
      | .ok feeStats =>
        match resolveInclusionFee feeStats with
        | none =>
          (.error (.generic "Cannot convert to a BigInt"), [.simulate] ++ statsTrace)
        | some inclusionFee =>
          let totalFee := inclusionFee + resourceFee
          (.ok ⟨toString inclusionFee, toString resourceFee, toString totalFee⟩,
           [.simulate] ++ statsTrace)

/-- The options argument of invokeContract. -/
structure InvokeOptions where
  sourceSecret : Option String
  sourceAccount : Option String
  timeoutMs : Option Nat

/-- The ContractResult interface returned by invokeContract. -/
structure ContractResult where
  success : Bool
  hash : Option String
  status : Option String
  result : JsVal
  events : List ContractEvent
  feeCharged : Option String
  error : Option String

/-- The try-block body of SorobanService.invokeContract: derive the
keypair and source account, fetch the account, build the operation
and transaction, simulate, prepare, sign, submit, poll for
confirmation, fetch events, and assemble the ContractResult.  The
second component is the ordered trace of remote calls issued. -/
def invokeBody (o : Oracle) (c : Codec) (cfg : Config)
    (contractId method : String) (params : List JsVal)
    (opts : InvokeOptions) (pollStart : Nat) :
    Except JsErr ContractResult × List RCall :=
  match o.keypairFromSecret (opts.sourceSecret.getD "") with
  | .error msg => (.error (.generic msg), [])
  | .ok publicKey =>
    let sourceAccount := jsOrStr opts.sourceAccount publicKey
    match o.getAccount sourceAccount with
    | .error e => (.error e, [.getAccount])
    | .ok account =>
      match buildContractOperation c contractId method params with
      | .error e => (.error e, [.getAccount])
      | .ok operation =>
        let transaction := mkTx account operation cfg
        match simulateTransaction o transaction with
        | .error e => (.error e, [.getAccount, .simulate])
        | .ok simulation =>
          match o.prepare transaction with
          | .error e => (.error e, [.getAccount, .simulate, .prepare])
          | .ok prepared =>
            let signed := { prepared with signed := true }
            match o.send signed with
            | .error e => (.error e, [.getAccount, .simulate, .prepare, .send])
            | .ok sendResponse =>
              if sendResponse.status = "ERROR" then
                (.error (.soroban
                    ⟨"Soroban transaction rejected", some contractId, some method⟩),
                 [.getAccount, .simulate, .prepare, .send])
              else if !jsTruthyOptStr sendResponse.hash then
                (.error (.soroban
                    ⟨"Soroban transaction did not return a hash", some contractId,
                      some method⟩),
                 [.getAccount, .simulate, .prepare, .send])
              else
                let txHash := sendResponse.hash.getD ""
                let w := waitForTransaction o txHash opts.timeoutMs cfg.apiTimeout
                  pollStart
                let q := countQueries w.2
                let baseTrace :=
                  [RCall.getAccount, RCall.simulate, RCall.prepare, RCall.send] ++
                    List.replicate q RCall.getTx
                match w.1 with
                | .error e => (.error e, baseTrace)
                | .ok confirmed =>
                  match getContractEvents o c txHash q with
                  | (.error e, t2) => (.error e, baseTrace ++ t2)
                  | (.ok events, t2) =>
                    let success := confirmed.status = some "SUCCESS"
                    (.ok
                      { success := success
                        hash := some txHash
                        status := confirmed.status
                        result := parseScVal c simulation.retval
                        events := events
                        feeCharged := confirmed.feeCharged
                        error :=
                          if success then none
                          else
                            jsOrOptStr confirmed.errorResultXdr
                              (jsOrOptStr confirmed.resultXdr confirmed.status) },
                     baseTrace ++ t2)

/-- SorobanService.invokeContract: the precondition checks (missing
contractId or method, missing source secret) fail before any remote
call; otherwise the try-block body runs and its errors pass through
the catch block, which rethrows SorobanExceptions unchanged and wraps
any other error with the contractId/method context. -/
def invokeContract (o : Oracle) (c : Codec) (cfg : Config)
    (contractId method : String) (params : List JsVal)
    (opts : InvokeOptions) (pollStart : Nat) :
    Except SorobanErr ContractResult × List RCall :=
  if contractId = "" ∨ method = "" then
    (.error ⟨"Contract ID and method are required", some contractId, some method⟩,
     [])
  else if !jsTruthyOptStr opts.sourceSecret then
    (.error
      ⟨"Missing source secret for contract invocation", some contractId,
        some method⟩,
     [])
  else
    let r := invokeBody o c cfg contractId method params opts pollStart
    (match r.1 with
     | .ok result => .ok result
     | .error (.soroban e) => .error e
     | .error (.generic msg) => .error ⟨msg, some contractId, some method⟩,
     r.2)

/-- JavaScript Array.isArray. -/
def jsIsArr : JsVal → Bool
  | .arr _ => true
  | _ => false

/-- The shape of a poll trace starting at a given attempt index:
queries separated by sleeps of exactly min(2000 * (attempt + 1),
8000) milliseconds, in attempt order; a trace may end right after a
query (a return or a failed query) or right after a sleep (deadline
reached). -/
inductive PollShape : Nat → List PollEv → Prop where
  | nil (a : Nat) : PollShape a []
  | last (a : Nat) : PollShape a [PollEv.query]
  | step (a : Nat) (tl : List PollEv) (h : PollShape (a + 1) tl) :
      PollShape a
        (PollEv.query :: PollEv.sleep (min (2000 * (a + 1)) 8000) :: tl)

/-- A fee statistic value that, when present, is a non-empty string
(so JavaScript truthiness coincides with presence). -/
def goodVal : Option String → Prop
  | some s => s ≠ ""
  | none => True

/-- All statistics of a bucket are good. -/
def goodBucket (b : FeeStatBucket) : Prop :=
  goodVal b.p95 ∧ goodVal b.max ∧ goodVal b.mode ∧ goodVal b.min

/-- A possibly-absent bucket whose statistics are good. -/
def goodBucketOpt : Option FeeStatBucket → Prop
  | some b => goodBucket b
  | none => True

/-- Well-formed fee statistics: every present statistic is a
non-empty string. -/
def goodStats (st : FeeStats) : Prop :=
  goodBucketOpt st.sorobanInclusionFee ∧ goodBucketOpt st.inclusionFee ∧
    goodBucketOpt st.feeCharged

/-! Concrete fixtures used by witness and counterexample theorems. -/

/-- A concrete codec: only "AAAA" base64-decodes (to the reference 7),
references decode to their numeric payload, and encoding always
succeeds. -/
def cW : Codec :=
  { fromBase64 := fun s => if s = "AAAA" then some 7 else none
    scValToNative := fun n => .num (Int.ofNat n)
    nativeToScVal := fun _ => .ok 0
    contractIdCheck := fun _ => .ok () }

/-- A concrete configuration. -/
def cfgW : Config := ⟨"Test SDF Network ; September 2015", 30000⟩

/-- Options with a source secret and a 10-second timeout. -/
def optsW : InvokeOptions := ⟨some "SSECRET", none, some 10000⟩

/-- Options with no source secret. -/
def optsNoSec : InvokeOptions := ⟨none, none, none⟩

/-- A successful confirmation response. -/
def txRespW : TxResponse := ⟨some "SUCCESS", some "100", none, none, some []⟩

/-- A pending confirmation response. -/
def txPendW : TxResponse := ⟨some "PENDING", none, none, none, none⟩

/-- A fee-statistics response with only a generic inclusionFee.p95. -/
def stW : FeeStats := ⟨none, some ⟨some "250", none, none, none⟩, none⟩

/-- A concrete operation. -/
def opW : Operation := ⟨"CDX", "swap", []⟩

/-- An endpoint for which every step succeeds: the simulation preview
returns the (falsy) empty string and the first poll already reports
SUCCESS. -/
def oOk : Oracle :=
  { keypairFromSecret := fun _ => .ok "GPUB"
    getAccount := fun _ => .ok ⟨"GPUB", "1"⟩
    simulate := fun _ => .ok (.ok ⟨.str "", some "50"⟩)
    prepare := fun t => .ok t
    send := fun _ => .ok ⟨"PENDING", some "abc"⟩
    getTx := fun _ _ => (.ok txRespW, 0)
    getFeeStats := none }

/-- An endpoint whose simulation reports a simulation error. -/
def oSimErr : Oracle :=
  { oOk with simulate := fun _ => .ok (.err "host function failed") }

/-- An endpoint whose account fetch throws a generic network error. -/
def oGen : Oracle :=
  { oOk with getAccount := fun _ => .error (.generic "connect ECONNREFUSED") }

/-- An endpoint whose first poll reports PENDING and whose later polls
report SUCCESS. -/
def oPend : Oracle :=
  { oOk with getTx := fun _ n =>
      if n = 0 then (.ok txPendW, 0) else (.ok txRespW, 0) }

/-- An endpoint for fee estimation: simulation succeeds with
minResourceFee 50 and fee statistics are those of stW. -/
def oFee : Oracle :=
  { oOk with
    simulate := fun _ => .ok (.ok ⟨.undefined, some "50"⟩)
    getFeeStats := some (.ok (some stW)) }

/-- A raw event with absent type and non-array topic slots. -/
def eW : RawEvent := ⟨.undefined, none, none, .undefined, .undefined, .str "data", .undefined⟩

/-- A raw event whose data and value slots are both falsy. -/
def eFalsy : RawEvent :=
  ⟨.str "transfer", none, none, .undefined, .undefined, .num 0, .bool false⟩

/-- The ContractResult produced by a run against oOk. -/
def resultW : ContractResult :=
  { success := true
    hash := some "abc"
    status := some "SUCCESS"
    result := .undefined
    events := []
    feeCharged := some "100"
    error := none }

/-! Theorems. -/

/-- Inverting a successful simulateTransaction call. -/
theorem simulateTransaction_ok {o : Oracle} {tx : Tx} {s : SimSuccess}
    (h : simulateTransaction o tx = Except.ok s) :
    o.simulate tx = Except.ok (SimResponse.ok s) := by
  unfold simulateTransaction at h
  split at h
  · exact absurd h (by simp)
  · exact absurd h (by simp)
  · next s2 heq =>
    cases h
    exact heq

/-- Inversion of a successful run: the result field of any returned
ContractResult is the decoded simulation preview of that run. -/
theorem invokeBody_ok_result (o : Oracle) (c : Codec) (cfg : Config)
    (contractId method : String) (params : List JsVal) (opts : InvokeOptions)
    (pollStart : Nat) (r : ContractResult)
    (h : (invokeBody o c cfg contractId method params opts pollStart).1 =
      Except.ok r) :
    ∃ tx s, o.simulate tx = Except.ok (SimResponse.ok s) ∧
      r.result = parseScVal c s.retval := by
  unfold invokeBody at h
  rcases hkp : o.keypairFromSecret (opts.sourceSecret.getD "") with msg | publicKey <;>
    rw [hkp] at h <;> simp at h
  rcases hacct : o.getAccount (jsOrStr opts.sourceAccount publicKey) with e | account <;>
    rw [hacct] at h <;> simp at h
  rcases hop : buildContractOperation c contractId method params with e | operation <;>
    rw [hop] at h <;> simp at h
  rcases hsim : simulateTransaction o (mkTx account operation cfg) with e | simulation <;>
    rw [hsim] at h <;> simp at h
  rcases hprep : o.prepare (mkTx account operation cfg) with e | prepared <;>
    rw [hprep] at h <;> simp at h
  rcases hsend : o.send { prepared with signed := true } with e | sendResponse <;>
    rw [hsend] at h <;> simp at h
  by_cases hstatus : sendResponse.status = "ERROR"
  · rw [if_pos hstatus] at h
    simp at h
  rw [if_neg hstatus] at h
  by_cases hhash : jsTruthyOptStr sendResponse.hash = false
  · rw [if_pos hhash] at h
    simp at h
  rw [if_neg hhash] at h
  rcases hw : (waitForTransaction o (sendResponse.hash.getD "") opts.timeoutMs
      cfg.apiTimeout pollStart).1 with e | confirmed <;> rw [hw] at h <;> simp at h
  rcases hev : getContractEvents o c (sendResponse.hash.getD "")
      (countQueries (waitForTransaction o (sendResponse.hash.getD "") opts.timeoutMs
        cfg.apiTimeout pollStart).2) with ⟨res2, t2⟩
  rw [hev] at h
  cases res2 with
  | error e => simp at h
  | ok events =>
    simp at h
    exact ⟨mkTx account operation cfg, simulation, simulateTransaction_ok hsim,
      by rw [← h]⟩

/-- C10: every falsy input (undefined, null, the empty string, the
number 0, or false) decodes to undefined under parseScVal (and so do
falsy event topic or data entries, which go through the same
decoder); a raw event whose data and value slots are both falsy
decodes with undefined data; and any successful invocation whose
simulation preview slot is falsy yields a ContractResult whose result
field is undefined. -/
theorem parseScVal_falsy_undefined (c : Codec) (v : JsVal)
    (hv : jsTruthy v = false) :
    parseScVal c v = JsVal.undefined ∧
    (∀ e : RawEvent, jsTruthy e.data = false → jsTruthy e.value = false →
      (parseEvent c e).data = JsVal.undefined) ∧
    (∀ (o : Oracle) (cfg : Config) (contractId method : String)
        (params : List JsVal) (opts : InvokeOptions) (pollStart : Nat),
      (∀ tx s, o.simulate tx = Except.ok (SimResponse.ok s) →
        jsTruthy s.retval = false) →
      ∀ r, (invokeContract o c cfg contractId method params opts pollStart).1 =
          Except.ok r →
      r.result = JsVal.undefined) := by
  have hfalsy : ∀ w : JsVal, jsTruthy w = false → parseScVal c w = JsVal.undefined := by
    intro w hw
    unfold parseScVal
    rw [hw]
    simp
  refine ⟨hfalsy v hv, ?_, ?_⟩
  · intro e h1 h2
    have hdv : jsTruthy (jsOr e.data e.value) = false := by
      simp [jsOr, h1, h2]
    simp [parseEvent, hfalsy _ hdv]
  · intro o cfg contractId method params opts pollStart hsim r hr
    have hbody : (invokeBody o c cfg contractId method params opts pollStart).1 =
        Except.ok r := by
      unfold invokeContract at hr
      by_cases h1 : contractId = "" ∨ method = ""
      · rw [if_pos h1] at hr
        simp at hr
      · rw [if_neg h1] at hr
        by_cases h2 : jsTruthyOptStr opts.sourceSecret = false
        · rw [if_pos (by simp [h2])] at hr
          simp at hr
        · rw [if_neg (by simp at h2 ⊢; simp [h2])] at hr
          simp only [] at hr
          rcases hb : (invokeBody o c cfg contractId method params opts pollStart).1
            with err | result
          · rw [hb] at hr
            cases err <;> simp at hr
          · rw [hb] at hr
            simp at hr
            rw [hr]
    obtain ⟨tx, s, hsim2, hres⟩ :=
      invokeBody_ok_result o c cfg contractId method params opts pollStart r hbody
    rw [hres]
    exact hfalsy _ (hsim tx s hsim2)

/-- C10 witness: the number 0 decodes to undefined, the event with
falsy data and value slots decodes with undefined data, and the
all-successful run against oOk (whose preview slot is the falsy empty
string) yields result undefined. -/
theorem parseScVal_falsy_undefined_witness :
    parseScVal cW (JsVal.num 0) = JsVal.undefined ∧
    (parseEvent cW eFalsy).data = JsVal.undefined ∧
    resultW.result = JsVal.undefined :=
  ⟨(parseScVal_falsy_undefined cW (JsVal.num 0) rfl).1,
   (parseScVal_falsy_undefined cW (JsVal.num 0) rfl).2.1 eFalsy rfl rfl,
   (parseScVal_falsy_undefined cW (JsVal.num 0) rfl).2.2 oOk cfgW "CDX" "swap" []
     optsW 0 (fun tx s h => by cases h; rfl) resultW
     (by simp [invokeContract, invokeBody, oOk, cW, cfgW, optsW, jsTruthyOptStr,
       jsOrStr, buildContractOperation, toScValList, mkTx, simulateTransaction,
       waitForTransaction, waitLoop, jsTimeoutOrDefault, countQueries,
       getContractEvents, parseEvents, parseScVal, jsTruthy, txRespW, resultW])⟩

/-- C7 counterexample: the empty string cannot be base64-decoded
(cW.fromBase64 rejects it), yet parseScVal returns undefined for it
rather than the original string, because the falsy guard fires before
the string branch. -/
theorem parseScVal_empty_string_counterexample :
    cW.fromBase64 "" = none ∧
    parseScVal cW (JsVal.str "") = JsVal.undefined ∧
    JsVal.undefined ≠ JsVal.str "" := by
  refine ⟨rfl, rfl, ?_⟩
  intro h
  exact JsVal.noConfusion h

/-- C7 (amended): for every non-empty string input, the decoder
returns the original string unchanged when base64 decoding is not
possible, and the decoded native value when it is.  (The empty
string, being falsy, instead returns undefined.) -/
theorem parseScVal_string_fallback (c : Codec) (s : String) (hs : s ≠ "") :
    (c.fromBase64 s = none → parseScVal c (JsVal.str s) = JsVal.str s) ∧
    (∀ v, c.fromBase64 s = some v →
      parseScVal c (JsVal.str s) = c.scValToNative v) := by
  have ht : jsTruthy (JsVal.str s) = true := by simp [jsTruthy, hs]
  constructor
  · intro hd
    simp [parseScVal, ht, hd]
  · intro v hd
    simp [parseScVal, ht, hd]

/-- C7 witness: an undecodable non-empty string comes back unchanged,
and a decodable one comes back decoded. -/
theorem parseScVal_string_fallback_witness :
    parseScVal cW (JsVal.str "zzz") = JsVal.str "zzz" ∧
    parseScVal cW (JsVal.str "AAAA") = cW.scValToNative 7 :=
  ⟨(parseScVal_string_fallback cW "zzz" (by decide)).1 rfl,
   (parseScVal_string_fallback cW "AAAA" (by decide)).2 7 rfl⟩

/-- C8: event decoding is total and per event (parseEvents is the map
of parseEvent); the type field defaults to the literal "unknown" when
absent, and the topics field is omitted (undefined) whenever the
selected source topic field is not an array. -/
theorem parseEvents_defaults (c : Codec) (e : RawEvent)
    (events : List RawEvent) :
    (e.type = JsVal.undefined → (parseEvent c e).type = "unknown") ∧
    (jsIsArr (jsOr e.topic e.topics) = false → (parseEvent c e).topics = none) ∧
    parseEvents c events = events.map (parseEvent c) := by
  refine ⟨?_, ?_, rfl⟩
  · intro ht
    simp [parseEvent, ht, jsOr, jsTruthy, jsToString]
  · intro htp
    cases hv : jsOr e.topic e.topics with
    | arr xs =>
      rw [hv] at htp
      simp [jsIsArr] at htp
    | undefined => simp [parseEvent, hv]
    | null => simp [parseEvent, hv]
    | bool b => simp [parseEvent, hv]
    | num n => simp [parseEvent, hv]
    | str s => simp [parseEvent, hv]
    | scv v => simp [parseEvent, hv]
    | scvWrapped v => simp [parseEvent, hv]

/-- C8 witness: a raw event with an absent type and no array in its
topic slots decodes with type "unknown" and no topics field. -/
theorem parseEvents_defaults_witness :
    (parseEvent cW eW).type = "unknown" ∧ (parseEvent cW eW).topics = none ∧
    parseEvents cW [eW] = [eW].map (parseEvent cW) :=
  ⟨(parseEvents_defaults cW eW [eW]).1 rfl,
   (parseEvents_defaults cW eW [eW]).2.1 rfl,
   (parseEvents_defaults cW eW [eW]).2.2⟩

/-- C2: when contractId is empty, method is empty, or the source
secret is falsy (absent in particular), invokeContract fails with a
SorobanException carrying the contractId/method attribution and the
remote-call trace is empty: no getAccount, simulateTransaction,
prepareTransaction, sendTransaction or getTransaction call is
issued. -/
theorem invoke_invalid_request_no_remote_calls
    (o : Oracle) (c : Codec) (cfg : Config) (contractId method : String)
    (params : List JsVal) (opts : InvokeOptions) (pollStart : Nat)
    (hbad : contractId = "" ∨ method = "" ∨
      jsTruthyOptStr opts.sourceSecret = false) :
    (invokeContract o c cfg contractId method params opts pollStart).2 = [] ∧
    ∃ e, (invokeContract o c cfg contractId method params opts pollStart).1 =
        Except.error e ∧
      e.contractId = some contractId ∧ e.method = some method := by
  unfold invokeContract
  by_cases hcm : contractId = "" ∨ method = ""
  · rw [if_pos hcm]
    exact ⟨rfl, ⟨_, rfl, rfl, rfl⟩⟩
  · rw [if_neg hcm]
    have hsec : jsTruthyOptStr opts.sourceSecret = false := by
      rcases hbad with h | h | h
      · exact absurd (Or.inl h) hcm
      · exact absurd (Or.inr h) hcm
      · exact h
    rw [if_pos (by simp [hsec])]
    exact ⟨rfl, ⟨_, rfl, rfl, rfl⟩⟩

/-- C2 witness: invoking with no source secret yields an attributed
error and an empty remote-call trace. -/
theorem invoke_invalid_request_witness :
    (invokeContract oOk cW cfgW "CDX" "swap" [] optsNoSec 0).2 = [] ∧
    ∃ e, (invokeContract oOk cW cfgW "CDX" "swap" [] optsNoSec 0).1 =
        Except.error e ∧
      e.contractId = some "CDX" ∧ e.method = some "swap" :=
  invoke_invalid_request_no_remote_calls oOk cW cfgW "CDX" "swap" [] optsNoSec 0
    (Or.inr (Or.inr rfl))

/-- C1: when the precondition checks pass and the run reaches the
simulation step and the simulation reports an error, invokeContract
fails with the simulation SorobanException whose message carries the
remote diagnostic, and the signed transaction is never submitted:
sendTransaction does not occur in the remote-call trace. -/
theorem invoke_simulation_error_no_send
    (o : Oracle) (c : Codec) (cfg : Config) (contractId method : String)
    (params : List JsVal) (opts : InvokeOptions) (pollStart : Nat)
    (sec publicKey : String) (account : Account) (op : Operation)
    (diag : String)
    (hcid : contractId ≠ "") (hm : method ≠ "")
    (hsec : opts.sourceSecret = some sec) (hsec2 : sec ≠ "")
    (hkp : o.keypairFromSecret sec = Except.ok publicKey)
    (hacct : o.getAccount (jsOrStr opts.sourceAccount publicKey) =
      Except.ok account)
    (hop : buildContractOperation c contractId method params = Except.ok op)
    (hsim : o.simulate (mkTx account op cfg) =
      Except.ok (SimResponse.err diag)) :
    (invokeContract o c cfg contractId method params opts pollStart).1 =
      Except.error ⟨"Simulation failed: " ++ diag, none, none⟩ ∧
    RCall.send ∉
      (invokeContract o c cfg contractId method params opts pollStart).2 := by
  unfold invokeContract
  rw [if_neg (by simp [hcid, hm])]
  rw [if_neg (by simp [hsec, jsTruthyOptStr, hsec2])]
  refine ⟨?_, ?_⟩ <;>
    simp [invokeBody, simulateTransaction, hsec, hkp, hacct, hop, hsim]

/-- C1 witness: against an endpoint whose simulation errors, the
invocation fails with the simulation exception and the trace has no
sendTransaction call. -/
theorem invoke_simulation_error_no_send_witness :
    (invokeContract oSimErr cW cfgW "CDX" "swap" [] optsW 0).1 =
      Except.error ⟨"Simulation failed: host function failed", none, none⟩ ∧
    RCall.send ∉ (invokeContract oSimErr cW cfgW "CDX" "swap" [] optsW 0).2 :=
  invoke_simulation_error_no_send oSimErr cW cfgW "CDX" "swap" [] optsW 0
    "SSECRET" "GPUB" ⟨"GPUB", "1"⟩ ⟨"CDX", "swap", []⟩ "host function failed"
    (by decide) (by decide) rfl (by decide) rfl rfl rfl rfl

/-- C9 counterexample: in a run whose simulation fails, the surfaced
error is the SorobanException raised inside simulateTransaction,
which carries no contractId and no method, refuting the claim that
every error surfaced by invokeContract carries that attribution. -/
theorem invoke_error_missing_attribution :
    (invokeContract oSimErr cW cfgW "CDX" "swap" [] optsW 0).1 =
      Except.error ⟨"Simulation failed: host function failed", none, none⟩ ∧
    SorobanErr.contractId
        ⟨"Simulation failed: host function failed", none, none⟩ = none ∧
    SorobanErr.method
        ⟨"Simulation failed: host function failed", none, none⟩ = none := by
  exact ⟨rfl, rfl, rfl⟩

/-- C9 (amended): the catch block wraps every raised error that is
not already a SorobanException with the contractId/method context
before rethrowing, and rethrows SorobanExceptions unchanged — so
attribution is guaranteed for unclassified errors, while inner-step
SorobanExceptions (such as the simulation failure or the confirmation
timeout) may surface without it. -/
theorem invoke_wraps_unclassified_errors
    (o : Oracle) (c : Codec) (cfg : Config) (contractId method : String)
    (params : List JsVal) (opts : InvokeOptions) (pollStart : Nat)
    (hcid : contractId ≠ "") (hm : method ≠ "")
    (hsec : jsTruthyOptStr opts.sourceSecret = true) :
    (∀ msg, (invokeBody o c cfg contractId method params opts pollStart).1 =
        Except.error (JsErr.generic msg) →
      (invokeContract o c cfg contractId method params opts pollStart).1 =
        Except.error ⟨msg, some contractId, some method⟩) ∧
    (∀ e, (invokeBody o c cfg contractId method params opts pollStart).1 =
        Except.error (JsErr.soroban e) →
      (invokeContract o c cfg contractId method params opts pollStart).1 =
        Except.error e) := by
  constructor <;> intro x hx <;>
    (unfold invokeContract
     rw [if_neg (by simp [hcid, hm]), if_neg (by simp [hsec])]
     simp only []
     rw [hx])

/-- C9 amended witness: a generic network error from the account
fetch surfaces wrapped with the contractId/method context. -/
theorem invoke_wraps_unclassified_errors_witness :
    (invokeContract oGen cW cfgW "CDX" "swap" [] optsW 0).1 =
      Except.error ⟨"connect ECONNREFUSED", some "CDX", some "swap"⟩ :=
  (invoke_wraps_unclassified_errors oGen cW cfgW "CDX" "swap" [] optsW 0
    (by decide) (by decide) rfl).1 "connect ECONNREFUSED" rfl

/-- On a good (present implies non-empty) first operand, the
JavaScript or-else on strings is plain presence priority. -/
theorem jsOrOptStr_good {a b : Option String} (ha : goodVal a) :
    jsOrOptStr a b = jsOrObj a b := by
  cases a with
  | none => rfl
  | some s =>
    have hs : s ≠ "" := ha
    simp [jsOrOptStr, jsOrObj, hs]

/-- Goodness is preserved by presence-priority choice. -/
theorem goodVal_jsOrObj {a b : Option String} (ha : goodVal a)
    (hb : goodVal b) : goodVal (jsOrObj a b) := by
  cases a with
  | none => exact hb
  | some s => exact ha

/-- On a good bucket the truthiness chain over the four statistics is
plain presence priority. -/
theorem feeCandidate_good (b : FeeStatBucket) (hb : goodBucket b) :
    jsOrOptStr (jsOrOptStr (jsOrOptStr b.p95 b.max) b.mode) b.min =
      jsOrObj (jsOrObj (jsOrObj b.p95 b.max) b.mode) b.min := by
  obtain ⟨h1, h2, h3, h4⟩ := hb
  rw [jsOrOptStr_good h1, jsOrOptStr_good (goodVal_jsOrObj h1 h2),
    jsOrOptStr_good (goodVal_jsOrObj (goodVal_jsOrObj h1 h2) h3)]

/-- Bucket goodness is preserved by presence-priority choice. -/
theorem goodBucketOpt_jsOrObj {a b : Option FeeStatBucket}
    (ha : goodBucketOpt a) (hb : goodBucketOpt b) :
    goodBucketOpt (jsOrObj a b) := by
  cases a with
  | none => exact hb
  | some x => exact ha

/-- C5: on well-formed fee statistics (every present statistic a
non-empty string) resolveInclusionFee realises exactly the
spec-stated priority — soroban-specific bucket over generic bucket
over feeCharged, and within the chosen bucket p95 over max over mode
over min, with the base fee as fallback; on the empty statistics
object it returns the base fee; and a missing fee-stats capability is
not an error: estimateFees then uses the empty statistics object. -/
theorem resolveInclusionFee_priority (st : FeeStats) (hst : goodStats st) :
    resolveInclusionFee st = specResolveInclusionFee st ∧
    resolveInclusionFee emptyFeeStats = toBigInt BASE_FEE ∧
    (∀ o : Oracle, o.getFeeStats = none →
      statsOf o = Except.ok emptyFeeStats) := by
  refine ⟨?_, rfl, ?_⟩
  · obtain ⟨hg1, hg2, hg3⟩ := hst
    unfold resolveInclusionFee specResolveInclusionFee
    rcases hbk : jsOrObj (jsOrObj st.sorobanInclusionFee st.inclusionFee)
        st.feeCharged with _ | b
    · simp
    · have hgb : goodBucket b := by
        have hall := goodBucketOpt_jsOrObj (goodBucketOpt_jsOrObj hg1 hg2) hg3
        rw [hbk] at hall
        exact hall
      simp [feeCandidate_good b hgb]
  · intro o h
    simp [statsOf, h]

/-- C5 witness: statistics with no soroban-specific bucket but a
generic inclusionFee.p95 follow the spec priority, and the empty
response falls back to the base fee. -/
theorem resolveInclusionFee_priority_witness :
    resolveInclusionFee stW = specResolveInclusionFee stW ∧
    resolveInclusionFee emptyFeeStats = toBigInt BASE_FEE ∧
    (∀ o : Oracle, o.getFeeStats = none →
      statsOf o = Except.ok emptyFeeStats) :=
  resolveInclusionFee_priority stW
    ⟨trivial, ⟨show ("250" : String) ≠ "" by decide, trivial, trivial, trivial⟩,
      trivial⟩

/-- C6: a call to estimateFees whose simulation succeeds and whose
fee inputs convert to non-negative bigints returns exactly
totalFee = inclusionFee + resourceFee, computed on unbounded
integers, and no component is negative. -/
theorem estimateFees_total_exact_nonneg
    (o : Oracle) (cfg : Config) (op : Operation) (sim : SimSuccess)
    (resourceFee inclusionFee : Int) (feeStats : FeeStats)
    (hsim : o.simulate (mkTx getSimulationAccount op cfg) =
      Except.ok (SimResponse.ok sim))
    (hrf : toBigInt (jsOrStr sim.minResourceFee "0") = some resourceFee)
    (hstats : statsOf o = Except.ok feeStats)
    (hincl : resolveInclusionFee feeStats = some inclusionFee)
    (hrf0 : 0 ≤ resourceFee) (hincl0 : 0 ≤ inclusionFee) :
    (estimateFees o cfg op).1 =
      Except.ok ⟨toString inclusionFee, toString resourceFee,
        toString (inclusionFee + resourceFee)⟩ ∧
    0 ≤ inclusionFee ∧ 0 ≤ resourceFee ∧ 0 ≤ inclusionFee + resourceFee := by
  refine ⟨?_, hincl0, hrf0, by omega⟩
  simp [estimateFees, simulateTransaction, hsim, hrf, hstats, hincl]

/-- C6 witness: with minResourceFee 50 and a generic p95 of 250, the
estimate is inclusion 250, resource 50, total 300, all
non-negative. -/
theorem estimateFees_total_exact_nonneg_witness :
    (estimateFees oFee cfgW opW).1 =
      Except.ok ⟨toString (250 : Int), toString (50 : Int),
        toString ((250 : Int) + 50)⟩ ∧
    0 ≤ (250 : Int) ∧ 0 ≤ (50 : Int) ∧ 0 ≤ (250 : Int) + 50 :=
  estimateFees_total_exact_nonneg oFee cfgW opW ⟨.undefined, some "50"⟩ 50 250 stW
    rfl (by decide) rfl (by decide) (by decide) (by decide)

/-- C4: the confirmation deadline is computed exactly once, at the
start of awaiting confirmation, as the current time plus the
caller-supplied timeoutMs (the configured default when it is absent);
the polling loop carries that fixed deadline unchanged through every
retry; and once the clock exceeds the deadline the poller raises the
confirmation-timeout SorobanException without issuing another status
query (the poll trace of that call is empty). -/
theorem waitForTransaction_deadline
    (o : Oracle) (txHash : String) (apiTimeout start : Nat) :
    (waitForTransaction o txHash none apiTimeout start =
      waitLoop o txHash (start + apiTimeout) start 0) ∧
    (∀ t : Nat, 0 < t →
      waitForTransaction o txHash (some t) apiTimeout start =
        waitLoop o txHash (start + t) start 0) ∧
    (∀ deadline now attempt : Nat, deadline < now →
      waitLoop o txHash deadline now attempt =
        (Except.error (JsErr.soroban
          ⟨"Timed out waiting for Soroban transaction", none, none⟩), [])) := by
  refine ⟨rfl, ?_, ?_⟩
  · intro t ht
    have ht0 : ¬ t = 0 := by omega
    unfold waitForTransaction
    simp [jsTimeoutOrDefault, ht0]
  · intro deadline now attempt hlt
    rw [waitLoop, dif_neg (by omega)]

/-- C4 witness: a caller-supplied timeout of 10000 ms gives deadline
start + 10000, and a poller already past its deadline times out with
an empty poll trace. -/
theorem waitForTransaction_deadline_witness :
    (waitForTransaction oOk "abc" (some 10000) 30000 0 =
      waitLoop oOk "abc" (0 + 10000) 0 0) ∧
    waitLoop oOk "abc" 5 10 0 =
      (Except.error (JsErr.soroban
        ⟨"Timed out waiting for Soroban transaction", none, none⟩), []) :=
  ⟨(waitForTransaction_deadline oOk "abc" 30000 0).2.1 10000 (by decide),
   (waitForTransaction_deadline oOk "abc" 30000 0).2.2 5 10 0 (by decide)⟩

/-- Every poll trace has the backoff shape, and a trace whose run
returns a response ends with a query (no trailing sleep). -/
theorem waitLoop_shape_aux (o : Oracle) (txHash : String) (deadline : Nat) :
    ∀ n now attempt, deadline - now ≤ n →
      PollShape attempt (waitLoop o txHash deadline now attempt).2 ∧
      (∀ r, (waitLoop o txHash deadline now attempt).1 = Except.ok r →
        ∃ pre, (waitLoop o txHash deadline now attempt).2 =
          pre ++ [PollEv.query]) := by
  intro n
  induction n with
  | zero =>
    intro now attempt hbound
    rw [waitLoop, dif_neg (by omega)]
    exact ⟨PollShape.nil attempt, fun r hr => Except.noConfusion hr⟩
  | succ k ih =>
    intro now attempt hbound
    by_cases hlt : now < deadline
    · rw [waitLoop, dif_pos hlt]
      split
      · exact ⟨PollShape.last attempt, fun r hr => Except.noConfusion hr⟩
      · next response dur heq =>
        split
        · exact ⟨PollShape.last attempt, fun r hr => ⟨[], rfl⟩⟩
        · obtain ⟨hshape, hok⟩ :=
            ih (now + dur + min (2000 * (attempt + 1)) 8000) (attempt + 1)
              (by omega)
          refine ⟨PollShape.step attempt _ hshape, ?_⟩
          intro r hr
          obtain ⟨pre, hpre⟩ := hok r hr
          refine ⟨PollEv.query :: PollEv.sleep (min (2000 * (attempt + 1)) 8000)
            :: pre, ?_⟩
          show PollEv.query :: PollEv.sleep (min (2000 * (attempt + 1)) 8000) ::
              (waitLoop o txHash deadline
                (now + dur + min (2000 * (attempt + 1)) 8000) (attempt + 1)).2 =
            _
          rw [hpre]
          rfl
    · rw [waitLoop, dif_neg hlt]
      exact ⟨PollShape.nil attempt, fun r hr => Except.noConfusion hr⟩

/-- C3: every poll trace has the PollShape backoff structure (every
sleep between the query of attempt n and the next query lasts exactly
min(2000 * (n + 1), 8000) milliseconds — the linear ramp 2s, 4s, 6s,
8s, 8s, ... capped at 8 seconds); a run that returns a response has
no sleep after its final query; a query with time remaining whose
status is absent (falsy) or PENDING makes the loop sleep exactly
min(2000 * (attempt + 1), 8000) milliseconds after the query and then
continue with the next query (attempt + 1, clock advanced by the
query duration plus that sleep); and a query whose status is truthy
and not PENDING returns that response immediately with a single-query
trace and no sleep. -/
theorem waitLoop_backoff (o : Oracle) (txHash : String)
    (deadline now attempt : Nat) :
    PollShape attempt (waitLoop o txHash deadline now attempt).2 ∧
    (∀ r, (waitLoop o txHash deadline now attempt).1 = Except.ok r →
      ∃ pre, (waitLoop o txHash deadline now attempt).2 =
        pre ++ [PollEv.query]) ∧
    (∀ response dur, now < deadline →
      o.getTx txHash attempt = (Except.ok response, dur) →
      (jsTruthyOptStr response.status = false ∨
        response.status = some "PENDING") →
      waitLoop o txHash deadline now attempt =
        ((waitLoop o txHash deadline
            (now + dur + min (2000 * (attempt + 1)) 8000) (attempt + 1)).1,
         PollEv.query :: PollEv.sleep (min (2000 * (attempt + 1)) 8000) ::
           (waitLoop o txHash deadline
             (now + dur + min (2000 * (attempt + 1)) 8000)
             (attempt + 1)).2)) ∧
    (∀ response dur, now < deadline →
      o.getTx txHash attempt = (Except.ok response, dur) →
      jsTruthyOptStr response.status = true →
      response.status ≠ some "PENDING" →
      waitLoop o txHash deadline now attempt =
        (Except.ok response, [PollEv.query])) := by
  refine
    ⟨(waitLoop_shape_aux o txHash deadline (deadline - now) now attempt
        le_rfl).1,
     (waitLoop_shape_aux o txHash deadline (deadline - now) now attempt
        le_rfl).2, ?_, ?_⟩
  · intro response dur hlt hgt hpend
    have hc : (jsTruthyOptStr response.status &&
        response.status != some "PENDING") = false := by
      rcases hpend with h | h
      · simp [h]
      · simp [h]
    rw [waitLoop, dif_pos hlt, hgt]
    simp [hc]
  · intro response dur hlt hgt hst hpend
    have hc : (jsTruthyOptStr response.status &&
        response.status != some "PENDING") = true := by
      simp [hst, hpend]
    rw [waitLoop, dif_pos hlt, hgt]
    simp [hc]

/-- C3 witness: against an endpoint whose first poll reports PENDING,
the trace has the backoff shape and the pending first query is
followed by a sleep of exactly min(2000 * 1, 8000) = 2000 ms before
the loop continues at attempt 1; against an endpoint whose first poll
reports SUCCESS, the loop returns immediately after a single query
with no sleep. -/
theorem waitLoop_backoff_witness :
    PollShape 0 (waitLoop oPend "abc" 10000 0 0).2 ∧
    waitLoop oPend "abc" 10000 0 0 =
      ((waitLoop oPend "abc" 10000 (0 + 0 + min (2000 * (0 + 1)) 8000)
          (0 + 1)).1,
       PollEv.query :: PollEv.sleep (min (2000 * (0 + 1)) 8000) ::
         (waitLoop oPend "abc" 10000 (0 + 0 + min (2000 * (0 + 1)) 8000)
           (0 + 1)).2) ∧
    waitLoop oOk "abc" 10000 0 0 = (Except.ok txRespW, [PollEv.query]) :=
  ⟨(waitLoop_backoff oPend "abc" 10000 0 0).1,
   (waitLoop_backoff oPend "abc" 10000 0 0).2.2.1 txPendW 0 (by decide) rfl
     (Or.inr rfl),
   (waitLoop_backoff oOk "abc" 10000 0 0).2.2.2 txRespW 0 (by decide) rfl rfl
     (by decide)⟩

end Soroban
